import Mathlib

/-!
Verification of the product-api repository: a shallow embedding of
`src/routers/productRouter.js` (the route table, middleware chains and the
swagger documentation annotations) together with models of the validator
middleware and the controller operations, which the router imports from
`../middleware/productReqValidator.js` and
`../controllers/productController.js`.
-/

namespace ProductApi

/-! ## Data model (spec section 3) -/

/-- The Product entity: id integer, name string, price number, color string
(optional), stock integer. Price is modelled as a rational number. -/
structure Product where
  id : Nat
  name : String
  price : ℚ
  color : Option String
  stock : Int
deriving DecidableEq, Repr

/-- A raw, untyped request body: each Product field may be absent. -/
structure ReqBody where
  name : Option String
  price : Option ℚ
  color : Option String
  stock : Option Int
deriving DecidableEq, Repr

/-- An inbound request, after routing: the `:id` path parameter (for by-id
routes) and the parsed JSON body (for mutating routes). -/
structure Request where
  id : Nat
  body : ReqBody
deriving DecidableEq, Repr

/-- The persistence layer state: the list of stored products. -/
abbrev Store := List Product

/-- A response body: a JSON array of products, a single product, or none. -/
inductive RespBody
  | products (ps : List Product)
  | product (p : Product)
  | empty
deriving DecidableEq, Repr

/-- An HTTP response: status code plus body. -/
structure Response where
  status : Nat
  body : RespBody
deriving DecidableEq, Repr

/-! ## Validator (modelled from the spec) -/

/-- Modelled from the spec: `src/middleware/productReqValidator.js` is imported
by the router but is not part of the repository snapshot. Spec section 4.2:
the validator confirms presence and basic type-correctness of the required
fields (name, price, stock; color is optional), and section 3 constrains
name to be non-empty and price/stock to be non-negative; section 8: a payload
missing `name` or with negative `price`/`stock` is rejected. -/
def productReqValidatorPasses (b : ReqBody) : Bool :=
  match b.name, b.price, b.stock with
  | some n, some p, some st => (n != "") && decide (0 ≤ p) && decide (0 ≤ st)
  | _, _, _ => false

/-! ## Controller operations (modelled from the spec) -/

/-- Modelled from the spec: the persistence layer assigns each created product
a fresh unique integer id (spec section 3: "unique, assigned by persistence
layer"). One larger than the maximum id in the store. -/
def nextId (s : Store) : Nat := (s.map Product.id).foldr max 0 + 1

/-- The Product built from a request body and an id, reading each body field
with a default (the validator guarantees presence on mutating routes). -/
def payloadProduct (i : Nat) (b : ReqBody) : Product :=
  ⟨i, b.name.getD "", b.price.getD 0, b.color, b.stock.getD 0⟩

/-- Modelled from the spec: `productController.createProduct`'s data-access
step (spec section 4.3): persist the validated payload with a store-assigned
id and return the persisted Product including that id. -/
def createProduct (s : Store) (b : ReqBody) : Product × Store :=
  (payloadProduct (nextId s) b, s ++ [payloadProduct (nextId s) b])

/-- Modelled from the spec: `productController.getProductById`'s data-access
step (spec section 4.3): return the matching Product or a not-found signal
if absent. -/
def getProductById (s : Store) (i : Nat) : Option Product :=
  s.find? (fun p => p.id == i)

/-- Modelled from the spec: `productController.updateProduct`'s data-access
step (spec sections 3 and 4.3): mutate the record in place, preserving its
id, or signal not-found if the id is absent. -/
def updateProduct (s : Store) (i : Nat) (b : ReqBody) :
    Option (Product × Store) :=
  match getProductById s i with
  | none => none
  | some _ =>
      some (payloadProduct i b,
        s.map (fun q => if q.id == i then payloadProduct i b else q))

/-- Modelled from the spec: `productController.deleteProduct`'s data-access
step (spec section 4.3): remove the record or signal not-found if absent. -/
def deleteProduct (s : Store) (i : Nat) : Option Store :=
  match getProductById s i with
  | none => none
  | some _ => some (s.filter (fun p => !(p.id == i)))

/-- Modelled from the spec: `productController.getAllProducts` maps the list
operation to 200 with the full collection (section 4.3: "empty collection is
success, not an error"). -/
def getAllProductsResp (s : Store) : Response × Store :=
  (⟨200, .products s⟩, s)

/-- Modelled from the spec: get-by-id maps a match to 200 and absence to 404
(spec sections 6 and 7). -/
def getProductByIdResp (s : Store) (i : Nat) : Response × Store :=
  match getProductById s i with
  | some p => (⟨200, .product p⟩, s)
  | none => (⟨404, .empty⟩, s)

/-- Modelled from the spec: create maps success to 201 with the persisted
Product (spec section 6). -/
def createProductResp (s : Store) (b : ReqBody) : Response × Store :=
  (⟨201, .product (createProduct s b).1⟩, (createProduct s b).2)

/-- Modelled from the spec: update maps success to 200 with the updated
Product and absence to 404 (spec section 6). -/
def updateProductResp (s : Store) (i : Nat) (b : ReqBody) :
    Response × Store :=
  match updateProduct s i b with
  | some ps => (⟨200, .product ps.1⟩, ps.2)
  | none => (⟨404, .empty⟩, s)

/-- Modelled from the spec: delete maps success to 200 confirmation and
absence to 404 (spec section 6). -/
def deleteProductResp (s : Store) (i : Nat) : Response × Store :=
  match deleteProduct s i with
  | some t => (⟨200, .empty⟩, t)
  | none => (⟨404, .empty⟩, s)

/-! ## Router (from `src/routers/productRouter.js`) -/

/-- HTTP methods used by the router. -/
inductive Method
  | GET
  | POST
  | PUT
  | DELETE
deriving DecidableEq, Repr

/-- References to the handler functions the router wires up: the five
controller methods and the validator middleware. -/
inductive HandlerRef
  | getAllProducts
  | getProductById
  | createProduct
  | updateProduct
  | deleteProduct
  | productReqValidator
deriving DecidableEq, Repr

/-- A registered route: method, path pattern, and the middleware chain in
registration order. -/
structure Route where
  method : Method
  path : String
  chain : List HandlerRef
deriving DecidableEq, Repr

/-- The route table of `productRouter.js`, in source order:
lines 52, 99, 139-143, 192-196 and 228. The POST path is written
`'/products/'` (trailing slash) in the source. -/
def productRouter : List Route :=
  [ ⟨.GET, "/products", [.getAllProducts]⟩,
    ⟨.GET, "/products/:id", [.getProductById]⟩,
    ⟨.POST, "/products/", [.productReqValidator, .createProduct]⟩,
    ⟨.PUT, "/products/:id", [.productReqValidator, .updateProduct]⟩,
    ⟨.DELETE, "/products/:id", [.deleteProduct]⟩ ]

/-! ## Express path matching (default non-strict mode) -/

/-- Split a character list at slashes. -/
def splitSegsAux : List Char → List Char → List (List Char)
  | [], cur => [cur.reverse]
  | c :: cs, cur =>
      if c = '/' then cur.reverse :: splitSegsAux cs []
      else splitSegsAux cs (c :: cur)

/-- Path segments of a path string, empty segments dropped (Express default
non-strict routing: a trailing slash is optional). -/
def pathSegs (s : String) : List (List Char) :=
  (splitSegsAux s.data []).filter (fun t => !t.isEmpty)

/-- A pattern segment starting with `:` is a named parameter and matches any
non-empty segment; otherwise the segments must be equal. -/
def segMatches (pat seg : List Char) : Bool :=
  match pat with
  | ':' :: _ => !seg.isEmpty
  | _ => decide (pat = seg)

/-- Segment-wise matching of equal-length segment lists. -/
def segsMatch : List (List Char) → List (List Char) → Bool
  | [], [] => true
  | p :: ps, u :: us => segMatches p u && segsMatch ps us
  | _, _ => false

/-- Whether a route path pattern matches a request URL. -/
def pathMatches (pattern url : String) : Bool :=
  segsMatch (pathSegs pattern) (pathSegs url)

/-- The first registered route matching a method and URL, as Express
dispatches. -/
def matchRoute (m : Method) (url : String) : Option Route :=
  productRouter.find? (fun r => r.method == m && pathMatches r.path url)

/-- The final handler (the controller) bound to a method and URL. -/
def boundHandler (m : Method) (url : String) : Option HandlerRef :=
  (matchRoute m url).bind (fun r => r.chain.getLast?)

/-- The middleware chain dispatched for a method and URL (empty if no route
matches). -/
def chainFor (m : Method) (url : String) : List HandlerRef :=
  ((matchRoute m url).map Route.chain).getD []

/-- The unique route registered for a method (each method appears once in
this router). -/
def routeFor (m : Method) : Option Route :=
  productRouter.find? (fun r => r.method == m)

/-! ## Middleware chain execution -/

/-- What one middleware step does: call `next()` or send a response. -/
inductive StepResult
  | next
  | respond (r : Response)
deriving DecidableEq, Repr

/-- Execution of a single handler: the validator passes the request through
or short-circuits with 400; each controller sends a response. -/
def runHandler : HandlerRef → Request → Store → StepResult × Store
  | .productReqValidator, req, s =>
      if productReqValidatorPasses req.body then (.next, s)
      else (.respond ⟨400, .empty⟩, s)
  | .getAllProducts, _, s =>
      (.respond (getAllProductsResp s).1, (getAllProductsResp s).2)
  | .getProductById, req, s =>
      (.respond (getProductByIdResp s req.id).1, (getProductByIdResp s req.id).2)
  | .createProduct, req, s =>
      (.respond (createProductResp s req.body).1, (createProductResp s req.body).2)
  | .updateProduct, req, s =>
      (.respond (updateProductResp s req.id req.body).1,
       (updateProductResp s req.id req.body).2)
  | .deleteProduct, req, s =>
      (.respond (deleteProductResp s req.id).1, (deleteProductResp s req.id).2)

/-- Execution of a middleware chain: response, final store, and the list of
handlers actually invoked, in order. An exhausted chain yields the framework
404 fallback. -/
def runChain : List HandlerRef → Request → Store →
    Response × Store × List HandlerRef
  | [], _, s => (⟨404, .empty⟩, s, [])
  | h :: rest, req, s =>
      match runHandler h req s with
      | (.next, s1) =>
          ((runChain rest req s1).1, (runChain rest req s1).2.1,
           h :: (runChain rest req s1).2.2)
      | (.respond r, s1) => (r, s1, [h])

/-- The handlers invoked when a chain runs. -/
def traceOf (c : List HandlerRef) (req : Request) (s : Store) :
    List HandlerRef :=
  (runChain c req s).2.2

/-! ## Swagger annotations (from the comment blocks of productRouter.js) -/

/-- JSON schema types occurring in the swagger annotations. -/
inductive SchemaType
  | string
  | integer
  | number
  | object
  | array
deriving DecidableEq, Repr

/-- A declared operation parameter: location (`in:`), name, required flag,
declared schema type. -/
structure SwaggerParam where
  location : String
  name : String
  required : Bool
  schemaType : SchemaType
deriving DecidableEq, Repr

/-- One `@swagger` comment block: documented path and method, declared
parameters, request-body properties, and for each response status the
declared schema properties (statuses documented without a schema are
omitted). -/
structure SwaggerDoc where
  path : String
  method : Method
  parameters : List SwaggerParam
  requestBodyProps : List (String × SchemaType)
  responseSchemaProps : List (Nat × List (String × SchemaType))
deriving DecidableEq, Repr

/-- The Product property list as it appears in the 200-response schemas
(lines 29-39 and 73-83). -/
def productSchemaProps : List (String × SchemaType) :=
  [("id", .integer), ("name", .string), ("price", .number),
   ("color", .string), ("stock", .integer)]

/-- The request-body property list of the POST and PUT blocks
(lines 112-121 and 161-171): no id, client does not assign it. -/
def bodySchemaProps : List (String × SchemaType) :=
  [("name", .string), ("price", .number), ("color", .string),
   ("stock", .integer)]

/-- The five `@swagger` blocks of productRouter.js, in source order. -/
def swaggerDocs : List SwaggerDoc :=
  [ ⟨"/products", .GET, [], [], [(200, productSchemaProps)]⟩,
    ⟨"/products/{id}", .GET, [⟨"path", "id", true, .string⟩], [],
      [(200, productSchemaProps)]⟩,
    ⟨"/products", .POST, [], bodySchemaProps, []⟩,
    ⟨"/products/{id}", .PUT, [⟨"path", "id", true, .string⟩],
      bodySchemaProps, []⟩,
    ⟨"/products/{id}", .DELETE, [⟨"path", "id", true, .string⟩], [], []⟩ ]

/-! ## Helper lemmas -/

lemma chainFor_post : chainFor .POST "/products" =
    [.productReqValidator, .createProduct] := by decide

lemma chainFor_put : chainFor .PUT "/products/7" =
    [.productReqValidator, .updateProduct] := by decide

lemma chainFor_get_all : chainFor .GET "/products" = [.getAllProducts] := by decide

lemma chainFor_get_one : chainFor .GET "/products/7" = [.getProductById] := by decide

lemma chainFor_delete : chainFor .DELETE "/products/7" = [.deleteProduct] := by decide

lemma runChain_validator_pass (c : HandlerRef) (req : Request) (s : Store)
    (h : productReqValidatorPasses req.body = true) :
    runChain [.productReqValidator, c] req s =
      ((runChain [c] req s).1, (runChain [c] req s).2.1,
        .productReqValidator :: (runChain [c] req s).2.2) := by
  simp [runChain, runHandler, h]

lemma runChain_validator_fail (c : HandlerRef) (req : Request) (s : Store)
    (h : productReqValidatorPasses req.body = false) :
    runChain [.productReqValidator, c] req s =
      (⟨400, .empty⟩, s, [.productReqValidator]) := by
  simp [runChain, runHandler, h]

lemma traceOf_single (c : HandlerRef) (req : Request) (s : Store)
    (h : c ≠ .productReqValidator) :
    traceOf [c] req s = [c] := by
  cases c <;> simp [traceOf, runChain, runHandler] at h ⊢

lemma traceOf_mutating (c : HandlerRef) (req : Request) (s : Store)
    (h : c ≠ .productReqValidator) :
    traceOf [.productReqValidator, c] req s =
      if productReqValidatorPasses req.body
      then [.productReqValidator, c] else [.productReqValidator] := by
  by_cases hp : productReqValidatorPasses req.body
  · rw [traceOf, runChain_validator_pass c req s hp, if_pos hp]
    have := traceOf_single c req s h
    rw [traceOf] at this
    simp [this]
  · rw [traceOf, runChain_validator_fail c req s (by simpa using hp), if_neg hp]
lemma id_le_foldr_max (s : Store) (p : Product) (hp : p ∈ s) :
    p.id ≤ (s.map Product.id).foldr max 0 := by
  induction s with
  | nil => cases hp
  | cons a t ih =>
      rcases List.mem_cons.mp hp with rfl | ht
      · exact le_max_left _ _
      · exact le_trans (ih ht) (le_max_right _ _)

lemma id_lt_nextId (s : Store) (p : Product) (hp : p ∈ s) :
    p.id < nextId s :=
  Nat.lt_succ_of_le (id_le_foldr_max s p hp)

lemma getProductById_append_fresh (s : Store) (p : Product)
    (h : ∀ q ∈ s, q.id ≠ p.id) :
    getProductById (s ++ [p]) p.id = some p := by
  induction s with
  | nil => simp [getProductById, List.find?]
  | cons a t ih =>
      have ha : (a.id == p.id) = false := by
        simpa using h a (List.mem_cons_self a t)
      simp only [getProductById, List.cons_append, List.find?, ha]
      exact ih (fun q hq => h q (List.mem_cons_of_mem a hq))

lemma getProductById_none (s : Store) (i : Nat)
    (h : ∀ p ∈ s, p.id ≠ i) :
    getProductById s i = none := by
  induction s with
  | nil => rfl
  | cons a t ih =>
      have ha : (a.id == i) = false := by
        simpa using h a (List.mem_cons_self a t)
      simp only [getProductById, List.find?, ha]
      exact ih (fun q hq => h q (List.mem_cons_of_mem a hq))

lemma getProductById_filter_out (s : Store) (i : Nat) :
    getProductById (s.filter (fun p => !(p.id == i))) i = none := by
  induction s with
  | nil => rfl
  | cons a t ih =>
      by_cases ha : a.id = i
      · have : (a.id == i) = true := by simpa using ha
        simp [List.filter, this, ih]
      · have : (a.id == i) = false := by simpa using ha
        simp [List.filter, this, getProductById, List.find?, ih]

lemma getProductById_map_update (s : Store) (i : Nat) (p' : Product)
    (hp' : p'.id = i) (hfound : (getProductById s i).isSome) :
    getProductById (s.map (fun q => if q.id == i then p' else q)) i =
      some p' := by
  induction s with
  | nil => simp [getProductById] at hfound
  | cons a t ih =>
      by_cases ha : a.id = i
      · have hab : (a.id == i) = true := by simpa using ha
        have hpb : (p'.id == i) = true := by simpa using hp'
        simp [getProductById, List.find?, hab, hpb]
      · have hab : (a.id == i) = false := by simpa using ha
        have ht : (getProductById t i).isSome := by
          simpa [getProductById, List.find?, hab] using hfound
        simpa [getProductById, List.find?, hab] using ih ht

lemma map_id_update (s : Store) (i : Nat) (p' : Product) (hp' : p'.id = i) :
    (s.map (fun q => if q.id == i then p' else q)).map Product.id =
      s.map Product.id := by
  induction s with
  | nil => rfl
  | cons a t ih =>
      have hhead : (if a.id == i then p' else a).id = a.id := by
        by_cases ha : a.id = i
        · have hab : (a.id == i) = true := by simpa using ha
          simp [hab, hp', ha]
        · have hab : (a.id == i) = false := by simpa using ha
          simp [hab]
      simp only [List.map_cons, hhead, ih]

lemma getProductById_id_eq (s : Store) (i : Nat) (p : Product)
    (h : getProductById s i = some p) : p.id = i := by
  have := List.find?_some h
  simpa using this
lemma passes_false_of_invalid (b : ReqBody)
    (h : b.name = none ∨ (∃ p, b.price = some p ∧ p < 0)
          ∨ (∃ st, b.stock = some st ∧ st < 0)) :
    productReqValidatorPasses b = false := by
  rcases hb : b.name with _ | n
  · rcases hp : b.price with _ | p <;> rcases hs : b.stock with _ | st <;>
      simp [productReqValidatorPasses, hb, hp, hs]
  · rcases hp : b.price with _ | p
    · rcases hs : b.stock with _ | st <;>
        simp [productReqValidatorPasses, hb, hp, hs]
    · rcases hs : b.stock with _ | st
      · simp [productReqValidatorPasses, hb, hp, hs]
      · rcases h with h | ⟨p2, hp2, hneg⟩ | ⟨st2, hst2, hneg⟩
        · rw [hb] at h; cases h
        · rw [hp] at hp2
          have : p = p2 := Option.some_injective _ hp2
          subst this
          simp [productReqValidatorPasses, hb, hp, hs,
            decide_eq_false (not_le.mpr hneg)]
        · rw [hs] at hst2
          have : st = st2 := Option.some_injective _ hst2
          subst this
          simp [productReqValidatorPasses, hb, hp, hs,
            decide_eq_false (not_le.mpr hneg)]

/-! ## Claim theorems -/

/-- C1: the Router binds exactly five endpoint handlers for the Product
resource, and only these: GET /products to the list operation, GET
/products/:id to get-by-id, POST /products to create, PUT /products/:id to
update, and DELETE /products/:id to delete. (The POST pattern is written
with a trailing slash in the source; under Express default non-strict
matching it serves POST /products.) -/
theorem router_binds_exactly_five_endpoints :
    productRouter.length = 5
    ∧ productRouter.map (fun r => (r.method, r.path)) =
        [(.GET, "/products"), (.GET, "/products/:id"), (.POST, "/products/"),
         (.PUT, "/products/:id"), (.DELETE, "/products/:id")]
    ∧ boundHandler .GET "/products" = some .getAllProducts
    ∧ boundHandler .GET "/products/17" = some .getProductById
    ∧ boundHandler .POST "/products" = some .createProduct
    ∧ boundHandler .PUT "/products/17" = some .updateProduct
    ∧ boundHandler .DELETE "/products/17" = some .deleteProduct := by
  decide

/-- C2: on the mutating routes (POST /products, PUT /products/:id) the
Validator runs before the Controller and the Controller is reached only if
the Validator passed the request through; the GET and DELETE chains never
run the Validator. -/
theorem validator_runs_before_controller :
    ∀ (req : Request) (s : Store),
      (HandlerRef.createProduct ∈ traceOf (chainFor .POST "/products") req s →
        productReqValidatorPasses req.body = true
        ∧ traceOf (chainFor .POST "/products") req s =
            [.productReqValidator, .createProduct])
      ∧ (HandlerRef.updateProduct ∈ traceOf (chainFor .PUT "/products/7") req s →
        productReqValidatorPasses req.body = true
        ∧ traceOf (chainFor .PUT "/products/7") req s =
            [.productReqValidator, .updateProduct])
      ∧ HandlerRef.productReqValidator ∉ traceOf (chainFor .GET "/products") req s
      ∧ HandlerRef.productReqValidator ∉ traceOf (chainFor .GET "/products/7") req s
      ∧ HandlerRef.productReqValidator ∉
          traceOf (chainFor .DELETE "/products/7") req s := by
  intro req s
  rw [chainFor_post, chainFor_put, chainFor_get_all, chainFor_get_one,
    chainFor_delete]
  rw [traceOf_mutating HandlerRef.createProduct req s (by simp),
    traceOf_mutating HandlerRef.updateProduct req s (by simp),
    traceOf_single HandlerRef.getAllProducts req s (by simp),
    traceOf_single HandlerRef.getProductById req s (by simp),
    traceOf_single HandlerRef.deleteProduct req s (by simp)]
  by_cases hp : productReqValidatorPasses req.body <;> simp [hp]

theorem validator_runs_before_controller_witness :
    productReqValidatorPasses
        (ReqBody.mk (some "Chair") (some 49) (some "red") (some 10)) = true
    ∧ traceOf (chainFor .POST "/products")
        (Request.mk 7 (ReqBody.mk (some "Chair") (some 49) (some "red") (some 10)))
        [] = [.productReqValidator, .createProduct] :=
  (validator_runs_before_controller
      (Request.mk 7 (ReqBody.mk (some "Chair") (some 49) (some "red") (some 10)))
      []).1 (by decide)
/-- C3: a request body missing the name field, or with negative price, or
with negative stock, is rejected by the Validator with a 400 response on
both mutating routes, and the Controller is not reached. -/
theorem invalid_payload_rejected_before_controller :
    ∀ (req : Request) (s : Store),
      (req.body.name = none
        ∨ (∃ p, req.body.price = some p ∧ p < 0)
        ∨ (∃ st, req.body.stock = some st ∧ st < 0)) →
      productReqValidatorPasses req.body = false
      ∧ (runChain (chainFor .POST "/products") req s).1 = ⟨400, .empty⟩
      ∧ HandlerRef.createProduct ∉ traceOf (chainFor .POST "/products") req s
      ∧ (runChain (chainFor .PUT "/products/7") req s).1 = ⟨400, .empty⟩
      ∧ HandlerRef.updateProduct ∉ traceOf (chainFor .PUT "/products/7") req s := by
  intro req s h
  have hf := passes_false_of_invalid req.body h
  refine ⟨hf, ?_, ?_, ?_, ?_⟩
  · rw [chainFor_post, runChain_validator_fail _ _ _ hf]
  · rw [chainFor_post, traceOf_mutating HandlerRef.createProduct req s (by simp)]
    simp [hf]
  · rw [chainFor_put, runChain_validator_fail _ _ _ hf]
  · rw [chainFor_put, traceOf_mutating HandlerRef.updateProduct req s (by simp)]
    simp [hf]

theorem invalid_payload_rejected_witness :
    productReqValidatorPasses (ReqBody.mk none (some 5) none (some 2)) = false
    ∧ (runChain (chainFor .POST "/products")
        (Request.mk 7 (ReqBody.mk none (some 5) none (some 2))) []).1 =
        ⟨400, .empty⟩
    ∧ HandlerRef.createProduct ∉ traceOf (chainFor .POST "/products")
        (Request.mk 7 (ReqBody.mk none (some 5) none (some 2))) []
    ∧ (runChain (chainFor .PUT "/products/7")
        (Request.mk 7 (ReqBody.mk none (some 5) none (some 2))) []).1 =
        ⟨400, .empty⟩
    ∧ HandlerRef.updateProduct ∉ traceOf (chainFor .PUT "/products/7")
        (Request.mk 7 (ReqBody.mk none (some 5) none (some 2))) [] :=
  invalid_payload_rejected_before_controller
    (Request.mk 7 (ReqBody.mk none (some 5) none (some 2))) [] (Or.inl rfl)

/-- C4: for every valid payload, create followed by get-by-id at the
returned id yields the stored Product, whose fields equal the payload
fields together with the assigned id, and create responds 201. -/
theorem create_then_get_roundtrip :
    ∀ (s : Store) (b : ReqBody),
      productReqValidatorPasses b = true →
      getProductById (createProduct s b).2 (createProduct s b).1.id =
        some (createProduct s b).1
      ∧ (createProduct s b).1.name = b.name.getD ""
      ∧ (createProduct s b).1.price = b.price.getD 0
      ∧ (createProduct s b).1.color = b.color
      ∧ (createProduct s b).1.stock = b.stock.getD 0
      ∧ (createProductResp s b).1.status = 201 := by
  intro s b hv
  refine ⟨?_, rfl, rfl, rfl, rfl, rfl⟩
  have hfresh : ∀ q ∈ s, q.id ≠ (payloadProduct (nextId s) b).id := by
    intro q hq
    exact Nat.ne_of_lt (id_lt_nextId s q hq)
  exact getProductById_append_fresh s (payloadProduct (nextId s) b) hfresh

theorem create_then_get_roundtrip_witness :
    productReqValidatorPasses
        (ReqBody.mk (some "Chair") (some 49) (some "red") (some 10)) = true
    ∧ (getProductById
        (createProduct [] (ReqBody.mk (some "Chair") (some 49) (some "red") (some 10))).2
        (createProduct [] (ReqBody.mk (some "Chair") (some 49) (some "red") (some 10))).1.id =
        some (createProduct [] (ReqBody.mk (some "Chair") (some 49) (some "red") (some 10))).1
      ∧ (createProduct [] (ReqBody.mk (some "Chair") (some 49) (some "red") (some 10))).1.name =
          (ReqBody.mk (some "Chair") (some 49) (some "red") (some 10)).name.getD ""
      ∧ (createProduct [] (ReqBody.mk (some "Chair") (some 49) (some "red") (some 10))).1.price =
          (ReqBody.mk (some "Chair") (some 49) (some "red") (some 10)).price.getD 0
      ∧ (createProduct [] (ReqBody.mk (some "Chair") (some 49) (some "red") (some 10))).1.color =
          (ReqBody.mk (some "Chair") (some 49) (some "red") (some 10)).color
      ∧ (createProduct [] (ReqBody.mk (some "Chair") (some 49) (some "red") (some 10))).1.stock =
          (ReqBody.mk (some "Chair") (some 49) (some "red") (some 10)).stock.getD 0
      ∧ (createProductResp [] (ReqBody.mk (some "Chair") (some 49) (some "red") (some 10))).1.status = 201) :=
  ⟨by decide, create_then_get_roundtrip []
    (ReqBody.mk (some "Chair") (some 49) (some "red") (some 10)) (by decide)⟩
/-- C5: for every id with no corresponding record in the store, get-by-id,
update and delete each respond 404 (not-found) and never 500
(server-error). -/
theorem absent_id_yields_not_found :
    ∀ (s : Store) (i : Nat) (b : ReqBody), (∀ p ∈ s, p.id ≠ i) →
      (getProductByIdResp s i).1.status = 404
      ∧ (getProductByIdResp s i).1.status ≠ 500
      ∧ (updateProductResp s i b).1.status = 404
      ∧ (updateProductResp s i b).1.status ≠ 500
      ∧ (deleteProductResp s i).1.status = 404
      ∧ (deleteProductResp s i).1.status ≠ 500 := by
  intro s i b h
  have hn := getProductById_none s i h
  simp [getProductByIdResp, updateProductResp, deleteProductResp,
    updateProduct, deleteProduct, hn]

theorem absent_id_yields_not_found_witness :
    (getProductByIdResp [] 1).1.status = 404
    ∧ (getProductByIdResp [] 1).1.status ≠ 500
    ∧ (updateProductResp [] 1 (ReqBody.mk none none none none)).1.status = 404
    ∧ (updateProductResp [] 1 (ReqBody.mk none none none none)).1.status ≠ 500
    ∧ (deleteProductResp [] 1).1.status = 404
    ∧ (deleteProductResp [] 1).1.status ≠ 500 :=
  absent_id_yields_not_found [] 1 (ReqBody.mk none none none none) (by simp)

/-- C6: whenever delete(id) succeeds, get-by-id(id) on the resulting store
yields not-found (404). -/
theorem delete_then_get_not_found :
    ∀ (s : Store) (i : Nat) (t : Store), deleteProduct s i = some t →
      getProductById t i = none
      ∧ (getProductByIdResp t i).1.status = 404 := by
  intro s i t hdel
  cases hfind : getProductById s i with
  | none => simp [deleteProduct, hfind] at hdel
  | some p =>
      simp only [deleteProduct, hfind, Option.some.injEq] at hdel
      have hnone := getProductById_filter_out s i
      rw [← hdel]
      exact ⟨hnone, by simp [getProductByIdResp, hnone]⟩

theorem delete_then_get_not_found_witness :
    getProductById [] 1 = none
    ∧ (getProductByIdResp ([] : Store) 1).1.status = 404 :=
  delete_then_get_not_found [Product.mk 1 "x" 0 none 2] 1 [] (by decide)

/-- C7: the list operation on the empty store returns the empty collection
with status 200, and for any store the list operation responds 200, never
404. -/
theorem list_empty_store_ok :
    (getAllProductsResp ([] : Store)).1.status = 200
    ∧ (getAllProductsResp ([] : Store)).1.body = RespBody.products []
    ∧ ∀ (s : Store), (getAllProductsResp s).1.status = 200
        ∧ (getAllProductsResp s).1.status ≠ 404 :=
  ⟨rfl, rfl, fun s => ⟨rfl, by simp [getAllProductsResp]⟩⟩

/-- C8: updating an existing Product with a valid payload mutates the
record in place, leaving its id unchanged (equal to the id found at that
key, and to the path id), leaving the store's id sequence unchanged, and
setting the remaining fields from the payload. -/
theorem update_preserves_id :
    ∀ (s : Store) (i : Nat) (b : ReqBody) (p0 q : Product) (t : Store),
      productReqValidatorPasses b = true →
      getProductById s i = some p0 →
      updateProduct s i b = some (q, t) →
      q.id = p0.id
      ∧ q.id = i
      ∧ getProductById t i = some q
      ∧ t.map Product.id = s.map Product.id
      ∧ q.name = b.name.getD "" ∧ q.price = b.price.getD 0
      ∧ q.color = b.color ∧ q.stock = b.stock.getD 0 := by
  intro s i b p0 q t hv hfind hupd
  have hp0 : p0.id = i := getProductById_id_eq s i p0 hfind
  simp only [updateProduct, hfind, Option.some.injEq, Prod.mk.injEq] at hupd
  obtain ⟨hq, ht⟩ := hupd
  subst hq
  subst ht
  refine ⟨hp0.symm, rfl, ?_, ?_, rfl, rfl, rfl, rfl⟩
  · exact getProductById_map_update s i (payloadProduct i b) rfl
      (by simp [hfind])
  · exact map_id_update s i (payloadProduct i b) rfl

theorem update_preserves_id_witness :
    (payloadProduct 1 (ReqBody.mk (some "Chair") (some 39) (some "red") (some 8))).id =
        (Product.mk 1 "x" 0 none 2).id
    ∧ (payloadProduct 1 (ReqBody.mk (some "Chair") (some 39) (some "red") (some 8))).id = 1
    ∧ getProductById
        [payloadProduct 1 (ReqBody.mk (some "Chair") (some 39) (some "red") (some 8))] 1 =
        some (payloadProduct 1 (ReqBody.mk (some "Chair") (some 39) (some "red") (some 8)))
    ∧ ([payloadProduct 1 (ReqBody.mk (some "Chair") (some 39) (some "red") (some 8))].map
        Product.id) = ([Product.mk 1 "x" 0 none 2] : Store).map Product.id
    ∧ (payloadProduct 1 (ReqBody.mk (some "Chair") (some 39) (some "red") (some 8))).name =
        (ReqBody.mk (some "Chair") (some 39) (some "red") (some 8)).name.getD ""
    ∧ (payloadProduct 1 (ReqBody.mk (some "Chair") (some 39) (some "red") (some 8))).price =
        (ReqBody.mk (some "Chair") (some 39) (some "red") (some 8)).price.getD 0
    ∧ (payloadProduct 1 (ReqBody.mk (some "Chair") (some 39) (some "red") (some 8))).color =
        (ReqBody.mk (some "Chair") (some 39) (some "red") (some 8)).color
    ∧ (payloadProduct 1 (ReqBody.mk (some "Chair") (some 39) (some "red") (some 8))).stock =
        (ReqBody.mk (some "Chair") (some 39) (some "red") (some 8)).stock.getD 0 :=
  update_preserves_id [Product.mk 1 "x" 0 none 2] 1
    (ReqBody.mk (some "Chair") (some 39) (some "red") (some 8))
    (Product.mk 1 "x" 0 none 2)
    (payloadProduct 1 (ReqBody.mk (some "Chair") (some 39) (some "red") (some 8)))
    [payloadProduct 1 (ReqBody.mk (some "Chair") (some 39) (some "red") (some 8))]
    (by decide) (by decide) (by decide)

/-- C9: the POST and PUT routes are wired to the one identical validator
middleware, so the create controller is reached for a body exactly when the
update controller is reached for that body. -/
theorem post_and_put_share_validator :
    (routeFor .POST).map Route.chain =
        some [.productReqValidator, .createProduct]
    ∧ (routeFor .PUT).map Route.chain =
        some [.productReqValidator, .updateProduct]
    ∧ ∀ (req : Request) (s : Store),
        (HandlerRef.createProduct ∈ traceOf (chainFor .POST "/products") req s
          ↔ productReqValidatorPasses req.body = true)
        ∧ (HandlerRef.updateProduct ∈ traceOf (chainFor .PUT "/products/7") req s
          ↔ productReqValidatorPasses req.body = true)
        ∧ (HandlerRef.createProduct ∈ traceOf (chainFor .POST "/products") req s
          ↔ HandlerRef.updateProduct ∈
              traceOf (chainFor .PUT "/products/7") req s) := by
  refine ⟨by decide, by decide, ?_⟩
  intro req s
  rw [chainFor_post, chainFor_put,
    traceOf_mutating HandlerRef.createProduct req s (by simp),
    traceOf_mutating HandlerRef.updateProduct req s (by simp)]
  by_cases hp : productReqValidatorPasses req.body <;> simp [hp]

/-- C10: every by-id swagger block (GET, PUT, DELETE on /products/{id})
declares the required id path parameter with schema type string (not
integer), while every response schema that declares an id property declares
it as integer, and at least one does. -/
theorem by_id_docs_declare_string_id_param :
    (swaggerDocs.filter (fun d => decide (d.path = "/products/{id}"))).map
        SwaggerDoc.method = [.GET, .PUT, .DELETE]
    ∧ (swaggerDocs.filter (fun d => decide (d.path = "/products/{id}"))).all
        (fun d => decide (d.parameters =
          [SwaggerParam.mk "path" "id" true .string])) = true
    ∧ SchemaType.string ≠ SchemaType.integer
    ∧ swaggerDocs.all (fun d => d.responseSchemaProps.all
        (fun rs => rs.2.all (fun pr =>
          !(decide (pr.1 = "id")) || decide (pr.2 = SchemaType.integer)))) = true
    ∧ swaggerDocs.any (fun d => d.responseSchemaProps.any
        (fun rs => rs.2.any (fun pr =>
          decide (pr.1 = "id") && decide (pr.2 = SchemaType.integer)))) = true := by
  decide

end ProductApi
